import Mathlib

/-!
Verification of the FreeWalk backend violation matching and reward engine.

The development shallowly embeds `upload_report` from `src/app/api/routes.py`
(the mounted FastAPI endpoint) together with the auth endpoints
(`request_otp`, `verify_otp`, `verify_not_burner`) and the data model of
`src/app/models/models.py`.

Modelling conventions:
  * coordinates are rationals (the source stores Python floats; no claim here
    depends on float rounding);
  * timestamps are integers counting seconds (`timedelta(hours=h)` becomes
    `h * 3600`);
  * the PostGIS oracles `ST_DWithin` and `ST_Intersects`, which the source
    delegates to the database, are environment parameters `near` and
    `containingWard`;
  * a SQLAlchemy `query(...).first()` with no `order_by` is modelled as
    `List.find?` over the violation list kept in insertion order, which is
    id order because ids are assigned sequentially;
  * each `db.commit()` in the source appends the currently visible database
    state to a commit trace; an exception between two commits leaves every
    earlier committed state durable (`db.rollback()` only discards
    uncommitted work), so the trace records exactly the states observable
    to other sessions.
-/

namespace FreeWalk

/-- `CategoryEnum` from `src/app/schemas/schemas.py`. -/
inductive Category
  | shop
  | vehicle
  | garbage
  | infrastructure
  | hazard
deriving DecidableEq, Repr

/-- A latitude/longitude pair. -/
structure Point where
  lat : ℚ
  lon : ℚ
deriving DecidableEq, Repr

/-- The `violations` table row (`src/app/models/models.py`).  The PostGIS
`location` column duplicates `latitude`/`longitude` and is not modelled
separately. -/
structure Violation where
  id : ℕ
  latitude : ℚ
  longitude : ℚ
  category : Category
  entity_reference : Option String
  ward_id : Option ℕ
  created_at : ℤ
  updated_at : ℤ
deriving DecidableEq, Repr

/-- The `reports` table row. -/
structure Report where
  violation_id : ℕ
  user_id : ℕ
  image_path : String
deriving DecidableEq, Repr

/-- Database state visible to `upload_report`: the violations table (in
insertion order, ids assigned from `nextViolationId`), the reports table and
the authenticated user's point balance. -/
structure St where
  violations : List Violation
  nextViolationId : ℕ
  reports : List Report
  total_points : ℤ
deriving DecidableEq, Repr

/-- Environment of a request: the two PostGIS oracles and the settings from
`src/app/core/config.py` (`NEARBY_METERS` is folded into `near`). -/
structure Env where
  near : Point → Point → Bool
  containingWard : Point → Option ℕ
  recentHours : ℤ
  rewardNew : ℤ
  rewardConfirmed : ℤ

/-- Which message/points branch produced the response: `new` is the
"First Reporter!" branch, `confirmed` the "Violation Confirmed!" branch. -/
inductive Outcome
  | new
  | confirmed
deriving DecidableEq, Repr

/-- The response body of `upload_report`. -/
structure UploadResult where
  outcome : Outcome
  reward_points : ℤ
  total_points : ℤ
deriving DecidableEq, Repr

/-- A finished request: response, final database state, and the trace of
states committed by each `db.commit()` (the last entry is `finalSt`). -/
structure RunOut where
  result : UploadResult
  finalSt : St
  commits : List St
deriving Repr

/-- Python `str.upper()` on the ASCII identifiers used for plates,
computed character-wise exactly as `String.toUpper` does. -/
def pyUpper (s : String) : String := String.mk (s.data.map Char.toUpper)

/-- Python truthiness of the optional `license_plate` form field:
`None` and the empty string are falsy. -/
def plateTruthy : Option String → Bool
  | some p => !(p == "")
  | none => false

/-- `license_plate.upper() if license_plate else None` from the source. -/
def plateER : Option String → Option String
  | some p => if p == "" then none else some (pyUpper p)
  | none => none

/-- Construct a violation row; `created_at`/`updated_at` take the column
defaults `datetime.now(timezone.utc)`. -/
def mkViolation (id : ℕ) (lat lon : ℚ) (cat : Category)
    (er : Option String) (ward : Option ℕ) (now : ℤ) : Violation :=
  { id := id, latitude := lat, longitude := lon, category := cat,
    entity_reference := er, ward_id := ward,
    created_at := now, updated_at := now }

/-- `setattr(matched_violation, "updated_at", now)` applied to the table. -/
def setFreshness (vs : List Violation) (vid : ℕ) (now : ℤ) : List Violation :=
  vs.map fun v => if v.id == vid then { v with updated_at := now } else v

/-- Insert a fresh violation row and bump the id counter. -/
def insertViolation (s : St) (v : Violation) : St :=
  { s with violations := s.violations ++ [v],
           nextViolationId := s.nextViolationId + 1 }

/-- Lines 173-199 of `routes.py`: the shared tail of `upload_report` after
the match decision.  `sBase` is the session state at that point and
`commits` the states already committed by the branch above. -/
def finishTail (env : Env) (uid : ℕ) (lat lon : ℚ) (category : Category)
    (license_plate : Option String) (img : String) (now : ℤ)
    (sBase : St) (commits : List St) (matched : Option Violation) : RunOut :=
  match matched with
  | some mv =>
      -- matched: freshness update, confirming report and reward, one commit
      let sF : St :=
        { sBase with
          violations := setFreshness sBase.violations mv.id now,
          reports := sBase.reports ++ [⟨mv.id, uid, img⟩],
          total_points := sBase.total_points + env.rewardConfirmed }
      { result := { outcome := Outcome.confirmed,
                    reward_points := env.rewardConfirmed,
                    total_points := sF.total_points },
        finalSt := sF, commits := commits ++ [sF] }
  | none =>
      -- no match: insert a violation (routes.py lines 182-191, note: no
      -- ward lookup on this path), commit, then report + reward, commit
      let vB := mkViolation sBase.nextViolationId lat lon category
        (plateER license_plate) none now
      let s2 := insertViolation sBase vB
      let sF : St :=
        { s2 with
          reports := s2.reports ++ [⟨vB.id, uid, img⟩],
          total_points := s2.total_points + env.rewardNew }
      { result := { outcome := Outcome.new,
                    reward_points := env.rewardNew,
                    total_points := sF.total_points },
        finalSt := sF, commits := commits ++ [s2, sF] }

/-- Session state after the match decision: the state visible to the tail,
the commits already issued, and `matched_violation`. -/
structure MatchPhase where
  sBase : St
  commits : List St
  matched : Option Violation

/-- Lines 128-172 of `routes.py`: the match decision of `upload_report`.

Faithful transcription notes:
  * the vehicle branch requires `category == vehicle and license_plate`
    (Python truthiness);
  * the `else` branch inserts and commits a violation row (with the ward
    oracle result) before running the spatial query, exactly as lines
    146-156 do;
  * the intermediate assignments of `new_report`, `points_earned` and
    `message` on lines 158-160 are dead: every later path reassigns all
    three before use, so they are omitted;
  * `matched_violation = query.first()` on line 172 sits inside the
    `if category == CategoryEnum.shop` block and therefore only runs for
    shop; for every other spatial category `matched_violation` stays
    `None`. -/
def matchPhase (env : Env) (s : St) (lat lon : ℚ) (category : Category)
    (license_plate : Option String) (now : ℤ) : MatchPhase :=
  let cutoff : ℤ := now - env.recentHours * 3600
  if category == Category.vehicle && plateTruthy license_plate then
    -- identifier-based match (routes.py lines 131-137)
    let matched := s.violations.find? fun v =>
      (v.category == Category.vehicle)
        && (v.entity_reference == plateER license_plate)
        && decide (cutoff ≤ v.updated_at)
    { sBase := s, commits := [], matched := matched }
  else
    -- spatial path (routes.py lines 138-172)
    let target : Point := ⟨lat, lon⟩
    let containing_ward := env.containingWard target
    let vA := mkViolation s.nextViolationId lat lon category
      (plateER license_plate) containing_ward now
    let s1 := insertViolation s vA
    -- db.commit() on line 155: s1 becomes durable here
    let matched :=
      if category == Category.shop then
        s1.violations.find? fun v =>
          (v.category == category)
            && env.near ⟨v.latitude, v.longitude⟩ target
            && decide (cutoff ≤ v.updated_at)
      else
        none
    { sBase := s1, commits := [s1], matched := matched }

/-- `upload_report` from `src/app/api/routes.py`, lines 128-205, starting
after the image upload (media handling is out of scope of the claims):
the match decision followed by the shared mutation tail. -/
def upload_report (env : Env) (s : St) (uid : ℕ) (lat lon : ℚ)
    (category : Category) (license_plate : Option String)
    (img : String) (now : ℤ) : RunOut :=
  let mp := matchPhase env s lat lon category license_plate now
  finishTail env uid lat lon category license_plate img now
    mp.sBase mp.commits mp.matched

/-! ### Concrete environment for scenario evaluation -/

/-- 37.7749 as an exact rational (see the bridging equations in the C1
theorem). -/
def shopLat1 : ℚ := Rat.mk' 377749 10000

/-- -122.4194 as an exact rational. -/
def shopLon1 : ℚ := Rat.mk' (-612097) 5000

/-- 37.77491 as an exact rational. -/
def shopLat2 : ℚ := Rat.mk' 3777491 100000

/-- -122.41941 as an exact rational. -/
def shopLon2 : ℚ := Rat.mk' (-12241941) 100000

/-- A concrete instance of the `ST_DWithin` oracle for the closed
scenarios: every pair of points drawn from `pts` counts as within
`NEARBY_METERS` of each other.  The scenario points are genuinely within
five meters pairwise: the two C1 shop reports are about 1.5 m apart and
every other scenario reuses a single point (distance 0). -/
def nearOn (pts : List Point) (a b : Point) : Bool :=
  pts.contains a && pts.contains b

/-- The points appearing in the closed scenarios. -/
def testPts : List Point :=
  [⟨shopLat1, shopLon1⟩, ⟨shopLat2, shopLon2⟩, ⟨10, 20⟩]

/-- Default settings (`NEARBY_METERS = 5` folded into `near`,
`RECENT_HOURS = 24`, `REWARD_NEW_VIOLATION = 50`,
`REWARD_CONFIRMED_VIOLATION = 10`) and no ward containing any point. -/
def testEnv : Env :=
  { near := nearOn testPts,
    containingWard := fun _ => none,
    recentHours := 24, rewardNew := 50, rewardConfirmed := 10 }

/-- An empty database owned by a user with zero points. -/
def emptySt : St :=
  { violations := [], nextViolationId := 0, reports := [], total_points := 0 }

/-- First call of the C1 scenario: shop report at (37.7749, -122.4194) on an
empty store. -/
def shopRun1 : RunOut :=
  upload_report testEnv emptySt 1 shopLat1 shopLon1
    Category.shop none "img1" 1000000

/-- Second call of the C1 scenario: shop report ≈ 1.5 m away, one hour
later. -/
def shopRun2 : RunOut :=
  upload_report testEnv shopRun1.finalSt 1 shopLat2 shopLon2
    Category.shop none "img2" 1003600

/-- A store holding one fresh garbage violation at (10, 20). -/
def garbageSt : St :=
  { violations := [mkViolation 0 (10 : ℚ) (20 : ℚ) Category.garbage none none 999000],
    nextViolationId := 1, reports := [], total_points := 0 }

/-- A store holding one shop violation at (10, 20) whose freshness timestamp
is `RECENT_WINDOW` plus one second in the past relative to `now = 1000000`. -/
def staleShopSt : St :=
  { violations := [{ mkViolation 0 (10 : ℚ) (20 : ℚ) Category.shop none none 0 with
                     updated_at := 1000000 - 24 * 3600 - 1 }],
    nextViolationId := 1, reports := [], total_points := 0 }

/-- `testEnv` with a ward directory in which ward 7 contains every point. -/
def wardEnv : Env :=
  { testEnv with containingWard := fun _ => some 7 }

/-- A store holding one fresh vehicle violation with entity reference
"ABC123", used to witness the vehicle matching characterisation. -/
def vehicleSt : St :=
  { violations := [mkViolation 0 50 60 Category.vehicle (some "ABC123") none 999000],
    nextViolationId := 1, reports := [], total_points := 0 }

/-! ### Sequences of resolutions (reward accounting) -/

/-- Points awarded for an outcome: `REWARD_NEW_VIOLATION` for "new",
`REWARD_CONFIRMED_VIOLATION` for "confirmed". -/
def rewardOf (env : Env) : Outcome → ℤ
  | Outcome.new => env.rewardNew
  | Outcome.confirmed => env.rewardConfirmed

/-- The form fields of one `upload_report` call. -/
structure CallInput where
  uid : ℕ
  latitude : ℚ
  longitude : ℚ
  category : Category
  license_plate : Option String
  image_path : String
  now : ℤ
deriving Repr

/-- Run a sequence of `upload_report` calls; returns the final state and
the outcome of every call in order. -/
def runSeq (env : Env) : St → List CallInput → St × List Outcome
  | s, [] => (s, [])
  | s, c :: cs =>
      let r := upload_report env s c.uid c.latitude c.longitude c.category
        c.license_plate c.image_path c.now
      let rest := runSeq env r.finalSt cs
      (rest.1, r.result.outcome :: rest.2)

/-! ### Auth endpoints (`verify_not_burner`, `request_otp`, `verify_otp`) -/

/-- Python `str.lower()` computed character-wise. -/
def pyLower (s : String) : String := String.mk (s.data.map Char.toLower)

/-- The characters after the last `@`, or the whole string when no `@`
occurs: exactly `email.split('@')[-1]`. -/
def afterLastAt (cs : List Char) : List Char :=
  cs.foldl (fun acc c => if c = '@' then [] else acc ++ [c]) []

/-- `email.split('@')[-1].lower()` from `verify_not_burner`. -/
def emailDomain (email : String) : String :=
  pyLower (String.mk (afterLastAt email.data))

/-- `verify_not_burner` raises HTTP 422 exactly when this holds; the
blocklist of the `disposable_email_domains` package is a parameter. -/
def isBurner (blocklist : List String) (email : String) : Bool :=
  blocklist.contains (emailDomain email)

/-- State touched by the auth endpoints: the local `users` table (emails;
rows are created with zero points) and the log of emails for which an OTP
was requested from the external provider. -/
structure AuthSt where
  users : List String
  otpSentTo : List String
deriving DecidableEq, Repr

/-- HTTP status of an auth endpoint response. -/
inductive AuthOutcome
  | ok
  | err422
  | err401
  | err500
deriving DecidableEq, Repr

/-- `request_otp` (`POST /auth/send-otp/`, routes.py lines 53-62): burner
check first, then the external OTP send; `sendOk` models whether the
provider accepts (`RuntimeError` becomes HTTP 500, no local state). -/
def request_otp (blocklist : List String) (sendOk : Bool) (email : String)
    (s : AuthSt) : AuthOutcome × AuthSt :=
  if isBurner blocklist email then (AuthOutcome.err422, s)
  else if sendOk then
    (AuthOutcome.ok, { s with otpSentTo := s.otpSentTo ++ [email] })
  else (AuthOutcome.err500, s)

/-- `verify_otp` (`POST /auth/verify-otp/`, routes.py lines 65-92): burner
check first, then the external OTP verification (`otpValid` models
`verify_otp_code`; a wrong code raises `ValueError`, HTTP 401), then the
lazy sync of the local user row and the token response. -/
def verify_otp (blocklist : List String) (otpValid : Bool) (email : String)
    (s : AuthSt) : AuthOutcome × AuthSt :=
  if isBurner blocklist email then (AuthOutcome.err422, s)
  else if !otpValid then (AuthOutcome.err401, s)
  else if s.users.contains email then (AuthOutcome.ok, s)
  else (AuthOutcome.ok, { s with users := s.users ++ [email] })

/-- One call to either auth endpoint, carrying the external oracle
outcome for that call. -/
inductive AuthOp
  | sendOtp (sendOk : Bool) (email : String)
  | checkOtp (otpValid : Bool) (email : String)

/-- Run a sequence of auth endpoint calls against the store. -/
def runAuth (blocklist : List String) : AuthSt → List AuthOp → AuthSt
  | s, [] => s
  | s, AuthOp.sendOtp ok e :: ops =>
      runAuth blocklist (request_otp blocklist ok e s).2 ops
  | s, AuthOp.checkOtp ok e :: ops =>
      runAuth blocklist (verify_otp blocklist ok e s).2 ops

/-! ### Claim theorems -/

/-- C1: evaluation of the spec scenario on the code.  The first shop report
on an empty store resolves as "confirmed" with 10 points (the spatial path
inserts a violation row before running the match query, and that row matches
itself), not as "new" with 50 points as the claim states; the second nearby
report within the window also resolves "confirmed" with 10 points and the
store then holds two violation rows instead of one. -/
theorem c1_first_shop_report_misclassified :
    (shopLat1 = 37.7749 ∧ shopLon1 = -122.4194
      ∧ shopLat2 = 37.77491 ∧ shopLon2 = -122.41941)
    ∧ shopRun1.result.outcome = Outcome.confirmed
    ∧ shopRun1.result.reward_points = 10
    ∧ shopRun1.finalSt.violations.length = 1
    ∧ shopRun2.result.outcome = Outcome.confirmed
    ∧ shopRun2.result.reward_points = 10
    ∧ shopRun2.finalSt.violations.length = 2
    ∧ shopRun2.finalSt.violations.map Violation.updated_at = [1003600, 1003600] := by
  refine ⟨⟨?_, ?_, ?_, ?_⟩, ?_⟩
  · rw [shopLat1, Rat.mk'_eq_divInt, Rat.divInt_eq_div]; norm_num
  · rw [shopLon1, Rat.mk'_eq_divInt, Rat.divInt_eq_div]; norm_num
  · rw [shopLat2, Rat.mk'_eq_divInt, Rat.divInt_eq_div]; norm_num
  · rw [shopLon2, Rat.mk'_eq_divInt, Rat.divInt_eq_div]; norm_num
  · decide

/-- C2: for a garbage report at the exact location of an existing fresh
garbage violation (the `near` oracle holds and the categories agree), the
code still resolves "new" and grows the violation table from one row to
three: `query.first()` is only executed for the shop category, so the
candidate is never consulted, and two fresh rows are inserted. -/
theorem c2_garbage_candidate_ignored :
    testEnv.near ⟨10, 20⟩ ⟨10, 20⟩ = true
    ∧ garbageSt.violations.map Violation.category = [Category.garbage]
    ∧ (upload_report testEnv garbageSt 1 10 20 Category.garbage none "img"
        1000000).result.outcome = Outcome.new
    ∧ (upload_report testEnv garbageSt 1 10 20 Category.garbage none "img"
        1000000).finalSt.violations.length = 3 := by
  decide

/-- C3: a resolution with outcome "confirmed" (Matched) nevertheless inserts
a violation row: the shop report on an empty store ends as "confirmed" while
the violation table grew from zero rows to one. -/
theorem c3_matched_outcome_inserts_row :
    shopRun1.result.outcome = Outcome.confirmed
    ∧ emptySt.violations.length = 0
    ∧ shopRun1.finalSt.violations.length = 1 := by
  decide

/-- C4: the resolution is not all-or-nothing.  For a garbage report the code
issues three separate commits; the state after the first commit — durable
even if everything later fails, and visible to concurrent sessions — holds a
violation row with no linked report and an unchanged point balance. -/
theorem c4_partial_commit_observable :
    (upload_report testEnv emptySt 1 10 20 Category.garbage none "img"
        1000000).commits.length = 3
    ∧ ((upload_report testEnv emptySt 1 10 20 Category.garbage none "img"
        1000000).commits.getD 0 emptySt).violations.length = 1
    ∧ ((upload_report testEnv emptySt 1 10 20 Category.garbage none "img"
        1000000).commits.getD 0 emptySt).reports = []
    ∧ ((upload_report testEnv emptySt 1 10 20 Category.garbage none "img"
        1000000).commits.getD 0 emptySt).total_points = 0 := by
  decide

/-- C6: a shop report near a stale shop violation (freshness exactly the
recent window plus one second in the past).  The stale candidate is indeed
excluded, but the report does not resolve "new": the row the code itself
just inserted matches, so the outcome is "confirmed" with 10 points and the
confirming report links to the fresh self-inserted row (id 1), not the stale
one (id 0). -/
theorem c6_stale_shop_self_match :
    (upload_report testEnv staleShopSt 1 10 20 Category.shop none "img"
        1000000).result.outcome = Outcome.confirmed
    ∧ (upload_report testEnv staleShopSt 1 10 20 Category.shop none "img"
        1000000).result.reward_points = 10
    ∧ (upload_report testEnv staleShopSt 1 10 20 Category.shop none "img"
        1000000).finalSt.reports = [⟨1, 1, "img"⟩]
    ∧ (upload_report testEnv staleShopSt 1 10 20 Category.shop none "img"
        1000000).finalSt.violations.length = 2 := by
  decide

/-- C7: a violation created on the no-match branch carries no ward even
though the ward directory contains its point: a vehicle report with a plate
and no existing match creates its violation with `ward_id = none` while the
containment oracle answers ward 7 for the very same coordinates. -/
theorem c7_created_vehicle_ward_dropped :
    wardEnv.containingWard ⟨10, 20⟩ = some 7
    ∧ (upload_report wardEnv emptySt 1 10 20 Category.vehicle (some "abc123")
        "img" 1000000).result.outcome = Outcome.new
    ∧ (upload_report wardEnv emptySt 1 10 20 Category.vehicle (some "abc123")
        "img" 1000000).finalSt.violations.map Violation.ward_id = [none] := by
  decide

/-- C8 counterexample: a garbage report submitted with a license plate
creates violation rows of category garbage that carry the uppercased entity
reference, refuting "a report of any other category never produces a
violation carrying an entity reference". -/
theorem c8_counterexample_nonvehicle_entity_reference :
    (upload_report testEnv emptySt 1 10 20 Category.garbage (some "abc123")
        "img" 1000000).finalSt.violations.map
      (fun v => (v.category, v.entity_reference))
      = [(Category.garbage, some "ABC123"), (Category.garbage, some "ABC123")] := by
  decide


/-- `request_otp` never touches the users table. -/
theorem request_otp_users (bl : List String) (ok : Bool) (e : String)
    (s : AuthSt) : ((request_otp bl ok e s).2).users = s.users := by
  unfold request_otp
  split
  · rfl
  · split <;> rfl

/-- `verify_otp` either leaves the users table unchanged or appends the
requesting email after the burner check passed. -/
theorem verify_otp_users (bl : List String) (ok : Bool) (e : String)
    (s : AuthSt) :
    ((verify_otp bl ok e s).2).users = s.users
    ∨ (isBurner bl e = false
        ∧ ((verify_otp bl ok e s).2).users = s.users ++ [e]) := by
  unfold verify_otp
  cases hb : isBurner bl e with
  | true => simp
  | false =>
      cases ok with
      | false => simp
      | true =>
          cases hc : s.users.contains e with
          | true => simp [hc]
          | false => right; simp [hc]

/-- Sequences of auth calls preserve "no burner-domain user exists". -/
theorem runAuth_no_burner (bl : List String) (ops : List AuthOp)
    (s : AuthSt) (hs : ∀ u ∈ s.users, isBurner bl u = false) :
    ∀ u ∈ (runAuth bl s ops).users, isBurner bl u = false := by
  induction ops generalizing s with
  | nil => exact hs
  | cons op ops ih =>
      cases op with
      | sendOtp ok e =>
          refine ih _ ?_
          rw [request_otp_users]
          exact hs
      | checkOtp ok e =>
          refine ih _ ?_
          rcases verify_otp_users bl ok e s with h | ⟨hb, h⟩
          · rw [h]; exact hs
          · rw [h]
            intro u hu
            rcases List.mem_append.mp hu with hu | hu
            · exact hs u hu
            · rcases List.mem_singleton.mp hu with rfl
              exact hb

/-- C10: an email whose domain is blocklisted is rejected with HTTP 422 by
both auth endpoints before any side effect (no OTP sent, no token issued,
no user row created), and a store free of burner-domain users stays free
of them under any sequence of auth calls. -/
theorem c10_burner_email_rejected (bl : List String) (e : String)
    (hb : isBurner bl e = true) (s : AuthSt) (sendOk otpValid : Bool)
    (ops : List AuthOp) (hs : ∀ u ∈ s.users, isBurner bl u = false) :
    request_otp bl sendOk e s = (AuthOutcome.err422, s)
    ∧ verify_otp bl otpValid e s = (AuthOutcome.err422, s)
    ∧ ∀ u ∈ (runAuth bl s ops).users, isBurner bl u = false := by
  refine ⟨?_, ?_, runAuth_no_burner bl ops s hs⟩
  · unfold request_otp; rw [hb]; simp
  · unfold verify_otp; rw [hb]; simp

/-- Witness for C10 at a concrete blocklist, email, store and call
sequence. -/
theorem c10_witness :
    isBurner ["mailinator.com"] "user@Mailinator.com" = true
    ∧ (∀ u ∈ (AuthSt.mk ["alice@gmail.com"] []).users,
        isBurner ["mailinator.com"] u = false)
    ∧ (request_otp ["mailinator.com"] true "user@Mailinator.com"
          (AuthSt.mk ["alice@gmail.com"] [])
        = (AuthOutcome.err422, AuthSt.mk ["alice@gmail.com"] [])
      ∧ verify_otp ["mailinator.com"] true "user@Mailinator.com"
          (AuthSt.mk ["alice@gmail.com"] [])
        = (AuthOutcome.err422, AuthSt.mk ["alice@gmail.com"] [])
      ∧ ∀ u ∈ (runAuth ["mailinator.com"] (AuthSt.mk ["alice@gmail.com"] [])
            [AuthOp.checkOtp true "user@mailinator.com",
             AuthOp.sendOtp true "bob@gmail.com",
             AuthOp.checkOtp true "bob@gmail.com"]).users,
          isBurner ["mailinator.com"] u = false) :=
  ⟨by decide, by decide,
    c10_burner_email_rejected ["mailinator.com"] "user@Mailinator.com"
      (by decide) (AuthSt.mk ["alice@gmail.com"] []) true true
      [AuthOp.checkOtp true "user@mailinator.com",
       AuthOp.sendOtp true "bob@gmail.com",
       AuthOp.checkOtp true "bob@gmail.com"]
      (by decide)⟩

/-- The vehicle-branch filter, in propositional form. -/
theorem vehicle_filter_iff (p : String) (hp : p ≠ "") (cutoff : ℤ)
    (v : Violation) :
    ((v.category == Category.vehicle)
        && (v.entity_reference == plateER (some p))
        && decide (cutoff ≤ v.updated_at)) = true
      ↔ v.category = Category.vehicle
        ∧ v.entity_reference = some (pyUpper p)
        ∧ cutoff ≤ v.updated_at := by
  simp [plateER, hp, and_assoc]

/-- C5: a vehicle report with a non-empty plate resolves "confirmed"
exactly when some stored violation has category vehicle, entity reference
equal to the uppercased plate, and freshness within the recent window; the
outcome does not depend on the report's coordinates, and absent such a
violation it is "new". -/
theorem c5_vehicle_plate_match (env : Env) (s : St) (uid : ℕ)
    (lat lon lat2 lon2 : ℚ) (p : String) (hp : p ≠ "")
    (img img2 : String) (now : ℤ) :
    ((upload_report env s uid lat lon Category.vehicle (some p) img
          now).result.outcome = Outcome.confirmed
      ↔ ∃ v ∈ s.violations, v.category = Category.vehicle
          ∧ v.entity_reference = some (pyUpper p)
          ∧ now - env.recentHours * 3600 ≤ v.updated_at)
    ∧ (upload_report env s uid lat lon Category.vehicle (some p) img
          now).result.outcome
        = (upload_report env s uid lat2 lon2 Category.vehicle (some p) img2
            now).result.outcome := by
  have htr : (Category.vehicle == Category.vehicle
      && plateTruthy (some p)) = true := by
    simp [plateTruthy, hp]
  simp only [upload_report, matchPhase, htr, if_true]
  cases hf : s.violations.find? fun v =>
      (v.category == Category.vehicle)
        && (v.entity_reference == plateER (some p))
        && decide (now - env.recentHours * 3600 ≤ v.updated_at) with
  | none =>
      simp only [hf, finishTail]
      constructor
      · simp only [show (Outcome.new = Outcome.confirmed) ↔ False by simp,
          false_iff]
        rintro ⟨v, hv, h1, h2, h3⟩
        have := List.find?_eq_none.mp hf v hv
        exact this ((vehicle_filter_iff p hp _ v).mpr ⟨h1, h2, h3⟩)
      · trivial
  | some v =>
      simp only [hf, finishTail]
      constructor
      · simp only [true_iff]
        refine ⟨v, List.mem_of_find?_eq_some hf, ?_⟩
        have hpv := List.find?_some hf
        exact (vehicle_filter_iff p hp _ v).mp hpv
      · trivial

/-- Witness for C5 at a concrete store holding a fresh vehicle violation
with plate "ABC123", matched case-insensitively from two distant
coordinate pairs. -/
theorem c5_witness :
    "abc123" ≠ ""
    ∧ (((upload_report testEnv vehicleSt 1 10 20 Category.vehicle
          (some "abc123") "i1" 1000000).result.outcome = Outcome.confirmed
        ↔ ∃ v ∈ vehicleSt.violations, v.category = Category.vehicle
            ∧ v.entity_reference = some (pyUpper "abc123")
            ∧ 1000000 - testEnv.recentHours * 3600 ≤ v.updated_at)
      ∧ (upload_report testEnv vehicleSt 1 10 20 Category.vehicle
            (some "abc123") "i1" 1000000).result.outcome
          = (upload_report testEnv vehicleSt 1 30 40 Category.vehicle
              (some "abc123") "i2" 1000000).result.outcome) :=
  ⟨by decide,
    c5_vehicle_plate_match testEnv vehicleSt 1 10 20 30 40 "abc123"
      (by decide) "i1" "i2" 1000000⟩

/-- The shared tail adds exactly the reward of its outcome to the balance
and appends exactly one report. -/
theorem finishTail_step (env : Env) (uid : ℕ) (lat lon : ℚ)
    (cat : Category) (lp : Option String) (img : String) (now : ℤ)
    (sBase : St) (commits : List St) (matched : Option Violation) :
    (finishTail env uid lat lon cat lp img now sBase commits
        matched).finalSt.total_points
      = sBase.total_points
        + rewardOf env (finishTail env uid lat lon cat lp img now sBase
            commits matched).result.outcome
    ∧ (finishTail env uid lat lon cat lp img now sBase commits
        matched).finalSt.reports.length
      = sBase.reports.length + 1 := by
  cases matched <;> simp [finishTail, insertViolation, rewardOf]

/-- The match phase never changes the balance or the reports table. -/
theorem matchPhase_base (env : Env) (s : St) (lat lon : ℚ)
    (cat : Category) (lp : Option String) (now : ℤ) :
    (matchPhase env s lat lon cat lp now).sBase.total_points = s.total_points
    ∧ (matchPhase env s lat lon cat lp now).sBase.reports = s.reports := by
  unfold matchPhase
  split <;> exact ⟨rfl, rfl⟩

/-- One `upload_report` call adds exactly the reward of its outcome and
exactly one report row. -/
theorem upload_report_step (env : Env) (s : St) (uid : ℕ) (lat lon : ℚ)
    (cat : Category) (lp : Option String) (img : String) (now : ℤ) :
    (upload_report env s uid lat lon cat lp img now).finalSt.total_points
      = s.total_points
        + rewardOf env (upload_report env s uid lat lon cat lp img
            now).result.outcome
    ∧ (upload_report env s uid lat lon cat lp img now).finalSt.reports.length
      = s.reports.length + 1 := by
  have h1 := finishTail_step env uid lat lon cat lp img now
    (matchPhase env s lat lon cat lp now).sBase
    (matchPhase env s lat lon cat lp now).commits
    (matchPhase env s lat lon cat lp now).matched
  have h2 := matchPhase_base env s lat lon cat lp now
  constructor
  · simpa [upload_report, h2.1] using h1.1
  · simpa [upload_report, h2.2] using h1.2

/-- Accounting along a sequence of calls: the final balance is the initial
balance plus the rewards of the recorded outcomes, and each call appends
exactly one report. -/
theorem runSeq_spec (env : Env) (s : St) (calls : List CallInput) :
    (runSeq env s calls).1.total_points
      = s.total_points
        + env.rewardNew * ((runSeq env s calls).2.count Outcome.new : ℤ)
        + env.rewardConfirmed
            * ((runSeq env s calls).2.count Outcome.confirmed : ℤ)
    ∧ (runSeq env s calls).1.reports.length
      = s.reports.length + calls.length := by
  induction calls generalizing s with
  | nil => simp [runSeq]
  | cons c cs ih =>
      obtain ⟨hstep1, hstep2⟩ := upload_report_step env s c.uid c.latitude
        c.longitude c.category c.license_plate c.image_path c.now
      obtain ⟨ih1, ih2⟩ := ih (upload_report env s c.uid c.latitude
        c.longitude c.category c.license_plate c.image_path c.now).finalSt
      simp only [runSeq]
      constructor
      · cases ho : (upload_report env s c.uid c.latitude c.longitude
            c.category c.license_plate c.image_path c.now).result.outcome with
        | new =>
            rw [ho] at hstep1
            simp only [rewardOf] at hstep1
            rw [ih1, hstep1, List.count_cons, List.count_cons]
            simp only [beq_self_eq_true, if_true,
              show (Outcome.new == Outcome.confirmed) = false by decide,
              show (Outcome.confirmed == Outcome.new) = false by decide,
              if_false]
            push_cast
            ring
        | confirmed =>
            rw [ho] at hstep1
            simp only [rewardOf] at hstep1
            rw [ih1, hstep1, List.count_cons, List.count_cons]
            simp only [beq_self_eq_true, if_true,
              show (Outcome.new == Outcome.confirmed) = false by decide,
              show (Outcome.confirmed == Outcome.new) = false by decide,
              if_false]
            push_cast
            ring
      · rw [ih2, hstep2, List.length_cons]
        omega

/-- C9: with non-negative configured rewards, a user's balance is
monotonically non-decreasing, each call adds exactly the reward of its
outcome and exactly one report row, and after K "new" and M "confirmed"
outcomes the balance grew by `K * REWARD_NEW + M * REWARD_CONFIRMED`. -/
theorem c9_reward_accounting (env : Env) (hN : 0 ≤ env.rewardNew)
    (hC : 0 ≤ env.rewardConfirmed) (s : St) (calls : List CallInput) :
    (runSeq env s calls).1.total_points
      = s.total_points
        + env.rewardNew * ((runSeq env s calls).2.count Outcome.new : ℤ)
        + env.rewardConfirmed
            * ((runSeq env s calls).2.count Outcome.confirmed : ℤ)
    ∧ s.total_points ≤ (runSeq env s calls).1.total_points
    ∧ (runSeq env s calls).1.reports.length
      = s.reports.length + calls.length := by
  obtain ⟨h1, h2⟩ := runSeq_spec env s calls
  refine ⟨h1, ?_, h2⟩
  have k1 : (0:ℤ) ≤ env.rewardNew
      * ((runSeq env s calls).2.count Outcome.new : ℤ) :=
    mul_nonneg hN (Nat.cast_nonneg _)
  have k2 : (0:ℤ) ≤ env.rewardConfirmed
      * ((runSeq env s calls).2.count Outcome.confirmed : ℤ) :=
    mul_nonneg hC (Nat.cast_nonneg _)
  rw [h1]
  linarith

/-- Witness for C9: one garbage call on the empty store with the default
rewards. -/
theorem c9_witness :
    (0:ℤ) ≤ testEnv.rewardNew ∧ (0:ℤ) ≤ testEnv.rewardConfirmed
    ∧ ((runSeq testEnv emptySt
          [CallInput.mk 1 10 20 Category.garbage none "img" 1000000]).1.total_points
        = emptySt.total_points
          + testEnv.rewardNew * ((runSeq testEnv emptySt
              [CallInput.mk 1 10 20 Category.garbage none "img"
                1000000]).2.count Outcome.new : ℤ)
          + testEnv.rewardConfirmed * ((runSeq testEnv emptySt
              [CallInput.mk 1 10 20 Category.garbage none "img"
                1000000]).2.count Outcome.confirmed : ℤ)
      ∧ emptySt.total_points ≤ (runSeq testEnv emptySt
          [CallInput.mk 1 10 20 Category.garbage none "img"
            1000000]).1.total_points
      ∧ (runSeq testEnv emptySt
          [CallInput.mk 1 10 20 Category.garbage none "img"
            1000000]).1.reports.length
        = emptySt.reports.length
          + [CallInput.mk 1 10 20 Category.garbage none "img"
              1000000].length) :=
  ⟨by decide, by decide,
    c9_reward_accounting testEnv (by decide) (by decide) emptySt
      [CallInput.mk 1 10 20 Category.garbage none "img" 1000000]⟩

/-- `setFreshness` changes only `updated_at`: ids and entity references
survive. -/
theorem setFreshness_fields (vs : List Violation) (vid : ℕ) (now : ℤ) :
    ∀ v ∈ setFreshness vs vid now, ∃ w ∈ vs,
      v.id = w.id ∧ v.entity_reference = w.entity_reference := by
  intro v hv
  rcases List.mem_map.mp hv with ⟨w, hw, rfl⟩
  refine ⟨w, hw, ?_, ?_⟩ <;> split <;> rfl

/-- The tail preserves "every violation at or above id `n0` has the entity
reference computed from this call's plate": freshness updates keep ids and
references, and the tail's own insert carries `plateER lp`. -/
theorem finishTail_er (env : Env) (uid : ℕ) (lat lon : ℚ) (cat : Category)
    (lp : Option String) (img : String) (now : ℤ) (sBase : St)
    (commits : List St) (matched : Option Violation) (n0 : ℕ)
    (hb : ∀ w ∈ sBase.violations, n0 ≤ w.id →
      w.entity_reference = plateER lp) :
    ∀ v ∈ (finishTail env uid lat lon cat lp img now sBase commits
        matched).finalSt.violations,
      n0 ≤ v.id → v.entity_reference = plateER lp := by
  cases matched with
  | some mv =>
      intro v hv hge
      simp only [finishTail] at hv
      rcases setFreshness_fields sBase.violations mv.id now v hv
        with ⟨w, hw, hid, her⟩
      rw [her]
      exact hb w hw (hid ▸ hge)
  | none =>
      intro v hv hge
      simp only [finishTail, insertViolation] at hv
      rcases List.mem_append.mp hv with h | h
      · exact hb v h hge
      · rcases List.mem_singleton.mp h with rfl
        rfl

/-- After the match phase, every violation at or above the incoming id
counter carries the entity reference computed from this call's plate. -/
theorem matchPhase_er (env : Env) (s : St) (lat lon : ℚ) (cat : Category)
    (lp : Option String) (now : ℤ)
    (hwf : ∀ w ∈ s.violations, w.id < s.nextViolationId) :
    ∀ w ∈ (matchPhase env s lat lon cat lp now).sBase.violations,
      s.nextViolationId ≤ w.id → w.entity_reference = plateER lp := by
  unfold matchPhase
  split
  · intro w hw hge
    exact absurd hge (Nat.not_le.mpr (hwf w hw))
  · intro w hw hge
    simp only [insertViolation] at hw
    rcases List.mem_append.mp hw with h | h
    · exact absurd hge (Nat.not_le.mpr (hwf w h))
    · rcases List.mem_singleton.mp h with rfl
      rfl

/-- C8 (amended): in a well-formed store, every violation row created by a
call carries exactly `plateER license_plate` — non-null iff a non-empty
plate was supplied, regardless of the report's category — and when
present it equals the uppercased plate. -/
theorem c8_entity_reference_iff_plate (env : Env) (s : St) (uid : ℕ)
    (lat lon : ℚ) (cat : Category) (lp : Option String) (img : String)
    (now : ℤ) (hwf : ∀ w ∈ s.violations, w.id < s.nextViolationId) :
    (∀ v ∈ (upload_report env s uid lat lon cat lp img
        now).finalSt.violations,
      s.nextViolationId ≤ v.id → v.entity_reference = plateER lp)
    ∧ ((plateER lp).isSome = true ↔ plateTruthy lp = true) := by
  constructor
  · have hbase := matchPhase_er env s lat lon cat lp now hwf
    have := finishTail_er env uid lat lon cat lp img now
      (matchPhase env s lat lon cat lp now).sBase
      (matchPhase env s lat lon cat lp now).commits
      (matchPhase env s lat lon cat lp now).matched
      s.nextViolationId hbase
    simpa [upload_report] using this
  · cases lp with
    | none => simp [plateER, plateTruthy]
    | some p =>
        by_cases hp : p = "" <;> simp [plateER, plateTruthy, hp]

/-- Witness for C8: a garbage report with plate "abc123" on the empty
store. -/
theorem c8_witness :
    (∀ w ∈ emptySt.violations, w.id < emptySt.nextViolationId)
    ∧ ((∀ v ∈ (upload_report testEnv emptySt 1 10 20 Category.garbage
          (some "abc123") "img" 1000000).finalSt.violations,
        emptySt.nextViolationId ≤ v.id →
          v.entity_reference = plateER (some "abc123"))
      ∧ ((plateER (some "abc123")).isSome = true
          ↔ plateTruthy (some "abc123") = true)) :=
  ⟨by decide,
    c8_entity_reference_iff_plate testEnv emptySt 1 10 20 Category.garbage
      (some "abc123") "img" 1000000 (by decide)⟩

end FreeWalk
